import Mathlib

/-!
A shallow embedding of `autoscope.py` (AutoScope: modular recon framework).

Modelling conventions:
* All file paths are taken relative to the per-target working directory
  (`<output>/<sanitized_target>/`), which the Python code creates once in
  `BaseModule.__init__` and never removes.  The filesystem is an association
  list of `(path, contents)` pairs plus a list of created directories.
* External effects (`shutil.which`, `subprocess.run`, the fixed
  `re.findall` pattern, and I/O faults while opening files) are supplied by
  an `Env` record of oracles; the orchestration logic itself is translated
  directly from the source.
* Every `print` becomes an entry of a `log : List String`; the elapsed-time
  fragment of `runCmd`'s success line (a wall-clock reading) is not
  modelled.
* Every `subprocess.run` call is additionally recorded in a `spawns` trace
  as the pair (command line, timeout argument), so that statements about
  which subprocesses are started, and with which timeout bound, can be made.
-/

/-!
String primitives.  The built-in `String.trim`, `String.splitOn`,
`String.endsWith` and `String.contains` are implemented by well-founded
recursion over byte positions, which the kernel cannot evaluate; the
following equivalents recurse structurally over the character list so that
concrete runs of the model can be checked by `decide`.
-/

/-- Split a character list at every occurrence of the separator
(`str.split(sep)` for a one-character separator; also how the model reads a
file line by line, for separator `'\n'`). -/
def splitChar (sep : Char) : List Char → List (List Char)
  | [] => [[]]
  | c :: cs =>
    if c == sep then [] :: splitChar sep cs
    else
      match splitChar sep cs with
      | [] => [[c]]
      | h :: t => (c :: h) :: t

/-- Split a character list at every whitespace character. -/
def splitWsRaw : List Char → List (List Char)
  | [] => [[]]
  | c :: cs =>
    if c.isWhitespace then [] :: splitWsRaw cs
    else
      match splitWsRaw cs with
      | [] => [[c]]
      | h :: t => (c :: h) :: t

/-- `str.split(sep)` for a one-character separator. -/
def strSplitOn (sep : Char) (s : String) : List String :=
  (splitChar sep s.data).map (fun l => ⟨l⟩)

/-- `str.strip()`: remove leading and trailing whitespace. -/
def strTrim (s : String) : String :=
  ⟨(((s.data.dropWhile (fun c => c.isWhitespace)).reverse.dropWhile
      (fun c => c.isWhitespace)).reverse)⟩

/-- `str.endswith(t)`. -/
def strEndsWith (s t : String) : Bool :=
  t.data.isSuffixOf s.data

/-- Concatenation of a list of strings (`''.join`). -/
def strConcat : List String → String
  | [] => ""
  | s :: rest => s ++ strConcat rest

/-- `sep.join(l)`. -/
def strIntercalate (sep : String) : List String → String
  | [] => ""
  | [s] => s
  | s :: rest => s ++ sep ++ strIntercalate sep rest

/-- Outcome of one `subprocess.run` call: normal completion with an exit
code, stdout and stderr; a `subprocess.TimeoutExpired`; or any other raised
exception. -/
inductive RunOutcome where
  | completed (returncode : Int) (stdout : String) (stderr : String)
  | timedOut
  | raised (msg : String)

/-- The filesystem visible to the program: plain files (path, contents) and
directories, all relative to the working directory.  A file's size in bytes
is the length of its contents string. -/
structure FS where
  files : List (String × String)
  dirs : List String

/-- `os.path.exists` on a plain file path. -/
def FS.existsFile (fs : FS) (p : String) : Bool :=
  fs.files.any (fun e => e.1 == p)

/-- `open(p, 'w')` followed by writing `c`: truncates/creates the file. -/
def FS.writeFile (fs : FS) (p c : String) : FS :=
  ⟨(p, c) :: fs.files.filter (fun e => !(e.1 == p)), fs.dirs⟩

/-- `os.makedirs(p, exist_ok=True)`. -/
def FS.makedirs (fs : FS) (p : String) : FS :=
  if fs.dirs.contains p then fs else ⟨fs.files, p :: fs.dirs⟩

/-- Reading a file's full contents, `none` if the file does not exist. -/
def FS.read (fs : FS) (p : String) : Option String :=
  (fs.files.find? (fun e => e.1 == p)).map (fun e => e.2)

/-- The external world: tool availability (`shutil.which`), subprocess
execution (command line and optional timeout), the fixed endpoint regular
expression `re.findall` pass of the JS-discovery module, and whether opening
a given path during the HTTP-probe tech-extraction block raises an OS
exception. -/
structure Env where
  which : String → Bool
  run : String → Option Nat → RunOutcome
  findall : String → List String
  openFault : String → Bool

/-- The shared read-only configuration dictionary built in `main`:
`{'fast': args.fast, 'deep': args.deep, 'timeout': 60 if args.fast else 300}`. -/
structure Config where
  fast : Bool
  deep : Bool
  timeout : Nat

/-- Result of one module `execute()` (or of `runCmd`): the returned
boolean, the filesystem afterwards, the printed lines, and the trace of
subprocesses spawned as (command, timeout argument) pairs. -/
structure ModResult where
  ok : Bool
  fs : FS
  log : List String
  spawns : List (String × Option Nat)

/-- `BaseModule.runCmd`: run the external command with
`timeout=self.config.get('timeout', 300)`; on non-zero exit print an error
and return `False`; on zero exit write captured stdout to `outfile_path`,
print a success line and return `True`; convert a timeout or any other
exception into a printed error and `False`. -/
def runCmd (env : Env) (cfg : Config) (name cmd outfile : String) (fs : FS) : ModResult :=
  match env.run cmd (some cfg.timeout) with
  | RunOutcome.completed rc out err =>
      if rc ≠ 0 then
        { ok := false, fs := fs,
          log := ["[ERROR] in " ++ name ++ ": " ++ strTrim err],
          spawns := [(cmd, some cfg.timeout)] }
      else
        { ok := true, fs := fs.writeFile outfile out,
          log := ["[SUCCESS] Completed " ++ name ++ ". Output: " ++ outfile],
          spawns := [(cmd, some cfg.timeout)] }
  | RunOutcome.timedOut =>
      { ok := false, fs := fs,
        log := ["[ERROR] Timeout in " ++ name],
        spawns := [(cmd, some cfg.timeout)] }
  | RunOutcome.raised e =>
      { ok := false, fs := fs,
        log := ["[ERROR] Failure in " ++ name ++ ": " ++ e],
        spawns := [(cmd, some cfg.timeout)] }

/-- `SubdomainModule.execute`. -/
def SubdomainModule.execute (env : Env) (cfg : Config) (target : String) (fs : FS) : ModResult :=
  if !env.which "subfinder" then
    { ok := false, fs := fs,
      log := ["[ERROR] subfinder not found. Please install it and add to PATH.",
              "[ERROR] Install subfinder via: go install github.com/projectdiscovery/subfinder/v2/cmd/subfinder@latest"],
      spawns := [] }
  else
    runCmd env cfg "subdomain"
      ("subfinder -d " ++ target ++ " -silent -o subs.txt" ++
        (if cfg.deep then " -all" else ""))
      "subs.txt" fs

/-- `PortsModule.execute`: `port_range = "1-1000" if self.config.get('fast')
else "1-65535"`. -/
def PortsModule.execute (env : Env) (cfg : Config) (target : String) (fs : FS) : ModResult :=
  if !env.which "naabu" then
    { ok := false, fs := fs,
      log := ["[ERROR] naabu not found. Please install it and add to PATH.",
              "[ERROR] Install naabu via: go install github.com/projectdiscovery/naabu/v2/cmd/naabu@latest"],
      spawns := [] }
  else
    runCmd env cfg "ports"
      ("naabu -host " ++ target ++ " -p " ++
        (if cfg.fast then "1-1000" else "1-65535") ++ " -silent -o ports.txt")
      "ports.txt" fs

/-- Python's `str.split()` with no argument: split on whitespace runs,
discarding empty pieces. -/
def pySplit (line : String) : List String :=
  ((splitWsRaw line.data).map (fun l => (⟨l⟩ : String))).filter (fun s => s ≠ "")

/-- The tech-extraction pass of `HttpProbeModule.execute`: for each line of
the probe output, if splitting on whitespace yields more than one token,
emit the second token followed by a newline. -/
def techExtract (content : String) : String :=
  strConcat ((strSplitOn '\n' content).filterMap (fun line =>
    match pySplit line with
    | _ :: p :: _ => some (p ++ "\n")
    | _ => none))

/-- The command line built by `HttpProbeModule.execute`. -/
def httpProbeCmd : String := "httpx -l subs.txt -silent -o httpx.txt -tech-detect"

/-- `HttpProbeModule.execute`: tool check, `subs.txt` dependency gate,
probe via `runCmd`, then the local tech-extraction pass whose `except`
branch converts any exception into a printed error and `False`. -/
def HttpProbeModule.execute (env : Env) (cfg : Config) (_target : String) (fs : FS) : ModResult :=
  if !env.which "httpx" then
    { ok := false, fs := fs,
      log := ["[ERROR] httpx not found. Please install it and add to PATH.",
              "[ERROR] Install httpx via: go install github.com/projectdiscovery/httpx/cmd/httpx@latest"],
      spawns := [] }
  else if !fs.existsFile "subs.txt" then
    { ok := false, fs := fs,
      log := ["[INFO] Skipping HTTP probe: subs.txt not found"], spawns := [] }
  else if !(runCmd env cfg "http_probe" httpProbeCmd "httpx.txt" fs).ok then
    runCmd env cfg "http_probe" httpProbeCmd "httpx.txt" fs
  else if env.openFault "httpx.txt" || env.openFault "tech.txt" then
    { ok := false, fs := (runCmd env cfg "http_probe" httpProbeCmd "httpx.txt" fs).fs,
      log := (runCmd env cfg "http_probe" httpProbeCmd "httpx.txt" fs).log ++
        ["[ERROR] Tech extraction failed"],
      spawns := (runCmd env cfg "http_probe" httpProbeCmd "httpx.txt" fs).spawns }
  else
    { ok := true,
      fs := (runCmd env cfg "http_probe" httpProbeCmd "httpx.txt" fs).fs.writeFile "tech.txt"
        (techExtract (((runCmd env cfg "http_probe" httpProbeCmd "httpx.txt" fs).fs.read
          "httpx.txt").getD "")),
      log := (runCmd env cfg "http_probe" httpProbeCmd "httpx.txt" fs).log ++
        ["[SUCCESS] Tech detection saved to tech.txt"],
      spawns := (runCmd env cfg "http_probe" httpProbeCmd "httpx.txt" fs).spawns }

/-- The URL list of `JsDiscoveryModule.execute`:
`[line.strip() for line in f if line.strip().endswith('.js')]`. -/
def jsUrls (content : String) : List String :=
  ((strSplitOn '\n' content).map (fun l => strTrim l)).filter (fun l => strEndsWith l ".js")

/-- One iteration of the JS-discovery fetch loop: run `curl -s <url>` with
no timeout argument, apply the endpoint regular expression to its stdout;
the surrounding bare `except: pass` swallows every failure, contributing no
endpoints. -/
def fetchOne (env : Env) (url : String) : List String :=
  match env.run ("curl -s " ++ url) none with
  | RunOutcome.completed _ out _ => env.findall out
  | RunOutcome.timedOut => []
  | RunOutcome.raised _ => []

/-- All endpoint substrings extracted across the fetched URLs
(`endpoints` just before deduplication). -/
def jsExtracted (env : Env) (fs : FS) : List String :=
  List.flatten ((jsUrls ((fs.read "httpx.txt").getD "")).map (fetchOne env))

/-- `JsDiscoveryModule.execute`: tool check, `httpx.txt` dependency gate,
fetch loop, then `'\n'.join(set(endpoints))` written to `endpoints.txt`
(`List.dedup` models `set`; Python's set order is arbitrary) and
`return bool(endpoints)`. -/
def JsDiscoveryModule.execute (env : Env) (_cfg : Config) (_target : String) (fs : FS) : ModResult :=
  if !env.which "curl" then
    { ok := false, fs := fs,
      log := ["[ERROR] curl not found. Please install it and add to PATH.",
              "[ERROR] curl not found. Install curl for Windows or use native requests."],
      spawns := [] }
  else if !fs.existsFile "httpx.txt" then
    { ok := false, fs := fs,
      log := ["[INFO] Skipping JS discovery: httpx.txt not found"], spawns := [] }
  else
    { ok := !(jsExtracted env fs).isEmpty,
      fs := fs.writeFile "endpoints.txt" (strIntercalate "\n" (jsExtracted env fs).dedup),
      log := ["[SUCCESS] Found " ++ toString (jsExtracted env fs).length ++
        " potential endpoints"],
      spawns := (jsUrls ((fs.read "httpx.txt").getD "")).map
        (fun u => ("curl -s " ++ u, (none : Option Nat))) }

/-- The hard-coded wordlist path of `DirBruteforceModule`. -/
def wordlistPath : String := "C:\\Users\\aayus\\Downloads\\common.txt"

/-- `DirBruteforceModule.execute`. -/
def DirBruteforceModule.execute (env : Env) (cfg : Config) (target : String) (fs : FS) : ModResult :=
  if !env.which "ffuf" then
    { ok := false, fs := fs,
      log := ["[ERROR] ffuf not found. Please install it and add to PATH.",
              "[ERROR] Install ffuf via: go install github.com/ffuf/ffuf/v2@latest"],
      spawns := [] }
  else if !fs.existsFile wordlistPath then
    { ok := false, fs := fs,
      log := ["[ERROR] Wordlist not found at " ++ wordlistPath ++ ". Download one and update the path."],
      spawns := [] }
  else
    runCmd env cfg "dir_bruteforce"
      ("ffuf -u https://" ++ target ++ "/FUZZ -w " ++ wordlistPath ++
        " -mc 200,301 -o dirs.txt -of csv")
      "dirs.txt" fs

/-- `ParamDiscoveryModule.execute`. -/
def ParamDiscoveryModule.execute (env : Env) (cfg : Config) (target : String) (fs : FS) : ModResult :=
  if !env.which "arjun" then
    { ok := false, fs := fs,
      log := ["[ERROR] arjun not found. Please install it and add to PATH.",
              "[ERROR] Install arjun via: pip install arjun"],
      spawns := [] }
  else
    runCmd env cfg "param_discovery"
      ("arjun -u https://" ++ target ++ " --stable -oT params.txt")
      "params.txt" fs

/-- `ScreenshotModule.execute`: note that `os.makedirs(out_dir,
exist_ok=True)` runs before the `httpx.txt` dependency check. -/
def ScreenshotModule.execute (env : Env) (cfg : Config) (_target : String) (fs : FS) : ModResult :=
  if !env.which "gowitness" then
    { ok := false, fs := fs,
      log := ["[ERROR] gowitness not found. Please install it and add to PATH.",
              "[ERROR] Install gowitness via: go install github.com/sensepost/gowitness@latest"],
      spawns := [] }
  else if !(fs.makedirs "screenshots").existsFile "httpx.txt" then
    { ok := false, fs := fs.makedirs "screenshots",
      log := ["[INFO] Skipping screenshots: httpx.txt not found"], spawns := [] }
  else
    runCmd env cfg "screenshot"
      "gowitness file -f httpx.txt -P screenshots --headless"
      "screenshots/report.html" (fs.makedirs "screenshots")

/-- The `'*.txt'` glob pattern of `generate_report`: a name in the working
directory itself (no path separator) ending in `.txt`. -/
def globTxt (name : String) : Bool :=
  strEndsWith name ".txt" && !(name.data.contains '/')

/-- `pathlib.Path.stem`: the file name without its last suffix. -/
def stem (name : String) : String :=
  let parts := strSplitOn '.' name
  if parts.length ≤ 1 then name else strIntercalate "." parts.dropLast

/-- The `.txt` entries `generate_report` iterates over:
`output_dir.glob('*.txt')`. -/
def txtSections (fs : FS) : List (String × String) :=
  fs.files.filter (fun e => globTxt e.1)

/-- The text `generate_report` writes for one `.txt` file: a section header
from the file's stem, then either the empty-file marker (when
`os.path.getsize(file) == 0`) or the file's full contents, each followed by
a blank line. -/
def reportSection (e : String × String) : String :=
  "## " ++ stem e.1 ++ "\n" ++
    (if e.2.length = 0 then "Empty - Module Failed or Skipped\n\n" else e.2 ++ "\n\n")

/-- The body written after the report title: the sections for the given
files, concatenated in order (the sequence of `f.write` calls in the
source's loop). -/
def reportBody : List (String × String) → String
  | [] => ""
  | e :: rest => reportSection e ++ reportBody rest

/-- `generate_report(output_dir, format)`: `open(report_file, 'w')` first
creates/truncates the report file, then the `'*.txt'` glob is taken and the
title plus one section per `.txt` file are written. -/
def generate_report (fs : FS) (format : String) : FS × List String :=
  ((fs.writeFile ("report." ++ format) "").writeFile ("report." ++ format)
    ("# AutoScope Report\n\n" ++
      reportBody (txtSections (fs.writeFile ("report." ++ format) ""))),
   ["[INFO] Report generated: report." ++ format])

/-- The seven module classes, as a closed set of kinds. -/
inductive ModuleKind where
  | subdomain
  | ports
  | http_probe
  | js_discovery
  | dir_bruteforce
  | param_discovery
  | screenshot
deriving DecidableEq, BEq

/-- Each module's `name` class attribute. -/
def ModuleKind.name : ModuleKind → String
  | .subdomain => "subdomain"
  | .ports => "ports"
  | .http_probe => "http_probe"
  | .js_discovery => "js_discovery"
  | .dir_bruteforce => "dir_bruteforce"
  | .param_discovery => "param_discovery"
  | .screenshot => "screenshot"

/-- Dispatch to the variant's `execute()`. -/
def ModuleKind.execute (m : ModuleKind) (env : Env) (cfg : Config) (target : String) (fs : FS) :
    ModResult :=
  match m with
  | .subdomain => SubdomainModule.execute env cfg target fs
  | .ports => PortsModule.execute env cfg target fs
  | .http_probe => HttpProbeModule.execute env cfg target fs
  | .js_discovery => JsDiscoveryModule.execute env cfg target fs
  | .dir_bruteforce => DirBruteforceModule.execute env cfg target fs
  | .param_discovery => ParamDiscoveryModule.execute env cfg target fs
  | .screenshot => ScreenshotModule.execute env cfg target fs

/-- The full ordered module list built in `main`. -/
def allModules : List ModuleKind :=
  [.subdomain, .ports, .http_probe, .js_discovery, .dir_bruteforce,
   .param_discovery, .screenshot]

/-- The parsed command-line arguments (`--resume` is declared but unused;
`target` also names the working directory, which this embedding keeps
implicit). -/
structure Args where
  target : String
  fast : Bool
  deep : Bool
  resume : Bool
  only_subdomains : Bool
  no_dirs : Bool
  no_screenshots : Bool
  report : String
  output : String

/-- The config dictionary `main` builds:
`{'fast': args.fast, 'deep': args.deep, 'timeout': 60 if args.fast else 300}`. -/
def mainConfig (a : Args) : Config :=
  ⟨a.fast, a.deep, if a.fast then 60 else 300⟩

/-- The three `isinstance`-based list filters applied in `main`. -/
def selectModules (a : Args) : List ModuleKind :=
  let ms := allModules
  let ms := if a.only_subdomains then ms.filter (fun m => m == .subdomain) else ms
  let ms := if a.no_dirs then ms.filter (fun m => !(m == .dir_bruteforce)) else ms
  if a.no_screenshots then ms.filter (fun m => !(m == .screenshot)) else ms

/-- The `for module in modules` loop of `main`: print the start notice,
call `execute()` discarding its boolean, and continue with the next module.
Returns the final filesystem, the accumulated log and the spawn trace. -/
def runModules (env : Env) (cfg : Config) (target : String) :
    List ModuleKind → FS → FS × List String × List (String × Option Nat)
  | [], fs => (fs, [], [])
  | m :: ms, fs =>
    let r := m.execute env cfg target fs
    let rest := runModules env cfg target ms r.fs
    (rest.1,
     (("[INFO] Executing module: " ++ m.name) :: r.log) ++ rest.2.1,
     r.spawns ++ rest.2.2)

/-- The final run summary of `main`. -/
structure MainResult where
  fs : FS
  log : List String
  spawns : List (String × Option Nat)

/-- The source's `main()` after argument parsing (renamed: `main` is reserved in Lean): the `--fast`/`--deep` mutual-exclusion
guard, the module loop, report generation, and the unconditional final
success banner. -/
def autoscopeMain (env : Env) (a : Args) (fs : FS) : MainResult :=
  if a.fast && a.deep then
    ⟨fs, ["[ERROR] Cannot use --fast and --deep together"], []⟩
  else
    let r := runModules env (mainConfig a) a.target (selectModules a) fs
    let rep := generate_report r.1 a.report
    ⟨rep.1, r.2.1 ++ rep.2 ++ ["[SUCCESS] AutoScope scan completed!"], r.2.2⟩

/-!
Concrete inputs used by witnesses and counterexamples.
-/

/-- An environment where every tool is on the PATH, every command completes
with exit code 0 and stdout `"x.js\n"`, the endpoint regular expression
matches nothing, and no I/O fault occurs. -/
def envOkW : Env :=
  ⟨fun _ => true, fun _ _ => RunOutcome.completed 0 "x.js\n" "", fun _ => [], fun _ => false⟩

/-- An environment where every command exits with status 1 and stderr
`" boom "`. -/
def envFailW : Env :=
  ⟨fun _ => true, fun _ _ => RunOutcome.completed 1 "" " boom ", fun _ => [], fun _ => false⟩

/-- An environment where commands succeed but opening any file during the
tech-extraction pass raises. -/
def envFaultW : Env :=
  ⟨fun _ => true, fun _ _ => RunOutcome.completed 0 "alive tech\n" "", fun _ => [], fun _ => true⟩

/-- An environment whose single fetched JS body yields one endpoint. -/
def envJsW : Env :=
  ⟨fun _ => true, fun _ _ => RunOutcome.completed 0 "var u = fetch('/api?q=');" "",
   fun _ => ["/api?q="], fun _ => false⟩

/-- An empty working directory. -/
def fsEmptyW : FS := ⟨[], []⟩

/-- A working directory holding only a subdomain-enumeration output. -/
def fsSubsW : FS := ⟨[("subs.txt", "a.example.com\n")], []⟩

/-- A working directory holding an HTTP-probe output with one JS URL. -/
def fsHttpxW : FS := ⟨[("httpx.txt", "http://x.example.com/app.js\n")], []⟩

/-- A working directory with one non-empty and one empty `.txt` output. -/
def fsReportW : FS := ⟨[("subs.txt", "a.example.com\n"), ("ports.txt", "")], []⟩

/-- The default (neither fast nor deep) configuration. -/
def cfgDefaultW : Config := ⟨false, false, 300⟩

/-- A default argument vector: target only, no profile flags. -/
def argsDefaultW : Args := ⟨"example.com", false, false, false, false, false, false, "md", "output"⟩

/-- An argument vector passing both `--fast` and `--deep`. -/
def argsFastDeepW : Args := ⟨"example.com", true, true, false, false, false, false, "md", "output"⟩

/-!
Helper lemmas shared by the claim theorems.
-/

/-- String concatenation is associative. -/
theorem strAppend_assoc (a b c : String) : a ++ b ++ c = a ++ (b ++ c) := by
  rcases a with ⟨la⟩; rcases b with ⟨lb⟩; rcases c with ⟨lc⟩
  show String.mk (la ++ lb ++ lc) = String.mk (la ++ (lb ++ lc))
  rw [List.append_assoc]

/-- Every `runCmd` call spawns exactly its command with the configured
timeout, on every outcome path. -/
theorem runCmd_spawns (env : Env) (cfg : Config) (name cmd outfile : String) (fs : FS) :
    (runCmd env cfg name cmd outfile fs).spawns = [(cmd, some cfg.timeout)] := by
  unfold runCmd
  cases h : env.run cmd (some cfg.timeout) with
  | completed rc out err => by_cases hrc : rc = 0 <;> simp [hrc]
  | timedOut => rfl
  | raised e => rfl

/-- Creating a directory does not change which plain files exist. -/
theorem FS.existsFile_makedirs (fs : FS) (d p : String) :
    (fs.makedirs d).existsFile p = fs.existsFile p := by
  unfold FS.makedirs FS.existsFile
  split <;> rfl

/-- Reading back a freshly written file yields the written contents. -/
theorem FS.read_writeFile (fs : FS) (p c : String) : (fs.writeFile p c).read p = some c := by
  unfold FS.writeFile FS.read
  rw [List.find?_cons_of_pos _ (by simp)]
  rfl

/-- Dropping the entries named `p` does not change the `.txt` selection when
`p` itself does not match the glob. -/
theorem filter_glob_erase (p : String) (hp : globTxt p = false) :
    ∀ l : List (String × String),
      (l.filter (fun e => !(e.1 == p))).filter (fun e => globTxt e.1) =
        l.filter (fun e => globTxt e.1) := by
  intro l
  induction l with
  | nil => rfl
  | cons e rest ih =>
    by_cases hb : e.1 == p
    · have he : e.1 = p := eq_of_beq hb
      simp [List.filter, hb, he, hp, ih]
    · simp only [List.filter, hb, Bool.not_false]
      by_cases hg : globTxt e.1 <;> simp [hg, ih]

/-- Writing a file whose name does not match the `'*.txt'` glob leaves the
report's section list unchanged. -/
theorem txtSections_writeFile (fs : FS) (p c : String) (h : globTxt p = false) :
    txtSections (fs.writeFile p c) = txtSections fs := by
  unfold txtSections FS.writeFile
  simp only [List.filter, h]
  exact filter_glob_erase p h fs.files

/-- The report body is the concatenation of one section per `.txt` file. -/
theorem reportBody_eq_map : ∀ l : List (String × String),
    reportBody l = strConcat (l.map reportSection)
  | [] => rfl
  | e :: rest => by simp [reportBody, strConcat, reportBody_eq_map rest]

/-- Every subprocess spawned by the subdomain module carries the configured
timeout. -/
theorem subdomain_spawn_bounded (env : Env) (cfg : Config) (t : String) (fs : FS) :
    ∀ p ∈ (SubdomainModule.execute env cfg t fs).spawns, p.2 = some cfg.timeout := by
  intro p hp
  unfold SubdomainModule.execute at hp
  split at hp
  · simp at hp
  · rw [runCmd_spawns] at hp
    simp at hp
    simp [hp]

/-- Every subprocess spawned by the port-scan module carries the configured
timeout. -/
theorem ports_spawn_bounded (env : Env) (cfg : Config) (t : String) (fs : FS) :
    ∀ p ∈ (PortsModule.execute env cfg t fs).spawns, p.2 = some cfg.timeout := by
  intro p hp
  unfold PortsModule.execute at hp
  split at hp
  · simp at hp
  · rw [runCmd_spawns] at hp; simp at hp; simp [hp]

/-- Every subprocess spawned by the HTTP-probe module carries the configured
timeout. -/
theorem http_probe_spawn_bounded (env : Env) (cfg : Config) (t : String) (fs : FS) :
    ∀ p ∈ (HttpProbeModule.execute env cfg t fs).spawns, p.2 = some cfg.timeout := by
  intro p hp
  unfold HttpProbeModule.execute at hp
  split at hp
  · simp at hp
  split at hp
  · simp at hp
  split at hp
  · rw [runCmd_spawns] at hp; simp at hp; simp [hp]
  split at hp
  · simp only [runCmd_spawns] at hp; simp at hp; simp [hp]
  · simp only [runCmd_spawns] at hp; simp at hp; simp [hp]

/-- Every subprocess spawned by the JS-discovery module is started with no
timeout argument. -/
theorem js_discovery_spawn_unbounded (env : Env) (cfg : Config) (t : String) (fs : FS) :
    ∀ p ∈ (JsDiscoveryModule.execute env cfg t fs).spawns, p.2 = (none : Option Nat) := by
  intro p hp
  unfold JsDiscoveryModule.execute at hp
  split at hp
  · simp at hp
  split at hp
  · simp at hp
  · simp only [List.mem_map] at hp
    obtain ⟨u, _, rfl⟩ := hp
    rfl

/-- Every subprocess spawned by the directory-bruteforce module carries the
configured timeout. -/
theorem dir_bruteforce_spawn_bounded (env : Env) (cfg : Config) (t : String) (fs : FS) :
    ∀ p ∈ (DirBruteforceModule.execute env cfg t fs).spawns, p.2 = some cfg.timeout := by
  intro p hp
  unfold DirBruteforceModule.execute at hp
  split at hp
  · simp at hp
  split at hp
  · simp at hp
  · rw [runCmd_spawns] at hp; simp at hp; simp [hp]

/-- Every subprocess spawned by the parameter-discovery module carries the
configured timeout. -/
theorem param_discovery_spawn_bounded (env : Env) (cfg : Config) (t : String) (fs : FS) :
    ∀ p ∈ (ParamDiscoveryModule.execute env cfg t fs).spawns, p.2 = some cfg.timeout := by
  intro p hp
  unfold ParamDiscoveryModule.execute at hp
  split at hp
  · simp at hp
  · rw [runCmd_spawns] at hp; simp at hp; simp [hp]

/-- Every subprocess spawned by the screenshot module carries the configured
timeout. -/
theorem screenshot_spawn_bounded (env : Env) (cfg : Config) (t : String) (fs : FS) :
    ∀ p ∈ (ScreenshotModule.execute env cfg t fs).spawns, p.2 = some cfg.timeout := by
  intro p hp
  unfold ScreenshotModule.execute at hp
  split at hp
  · simp at hp
  split at hp
  · simp at hp
  · rw [runCmd_spawns] at hp; simp at hp; simp [hp]

/-- The pipeline loop prints the start notices of the given modules in list
order (as an ordered sublist of its log). -/
theorem runModules_notices (env : Env) (cfg : Config) (t : String) :
    ∀ (ms : List ModuleKind) (fs : FS),
      List.Sublist (ms.map (fun m => "[INFO] Executing module: " ++ m.name))
        (runModules env cfg t ms fs).2.1
  | [], fs => by simp [runModules]
  | m :: ms, fs => by
      simp only [runModules, List.map_cons, List.cons_append]
      exact List.Sublist.cons₂ _
        ((runModules_notices env cfg t ms _).trans (List.sublist_append_right _ _))

/-!
Claim theorems.
-/

/-- C1 (counterexample): with `gowitness` available and `httpx.txt` absent,
the screenshot module's `execute()` returns failure but still creates the
`screenshots` directory in the working directory, so the claim "creates no
file or directory" is false for the screenshot module. -/
theorem C1_screenshot_creates_dir_counterexample :
    fsEmptyW.existsFile "httpx.txt" = false ∧
    (ScreenshotModule.execute envOkW cfgDefaultW "example.com" fsEmptyW).ok = false ∧
    ¬ (ScreenshotModule.execute envOkW cfgDefaultW "example.com" fsEmptyW).fs.dirs =
        fsEmptyW.dirs := by
  decide

/-- C1 (amended): when the required upstream output file is absent, each
dependent module's `execute()` returns failure; HTTP probing and JS
discovery leave the filesystem untouched, while the screenshot module —
when its tool is available — has already created its `screenshots` output
directory before the dependency check, and changes nothing else. -/
theorem C1_upstream_gate_amended (env : Env) (cfg : Config) (t : String) (fs : FS)
    (hs : fs.existsFile "subs.txt" = false) (hh : fs.existsFile "httpx.txt" = false) :
    ((HttpProbeModule.execute env cfg t fs).ok = false ∧
      (HttpProbeModule.execute env cfg t fs).fs = fs) ∧
    ((JsDiscoveryModule.execute env cfg t fs).ok = false ∧
      (JsDiscoveryModule.execute env cfg t fs).fs = fs) ∧
    ((ScreenshotModule.execute env cfg t fs).ok = false ∧
      (ScreenshotModule.execute env cfg t fs).fs =
        (if env.which "gowitness" then fs.makedirs "screenshots" else fs)) := by
  refine ⟨?_, ?_, ?_⟩
  · by_cases hw : env.which "httpx" <;> simp [HttpProbeModule.execute, hw, hs]
  · by_cases hw : env.which "curl" <;> simp [JsDiscoveryModule.execute, hw, hh]
  · by_cases hw : env.which "gowitness" <;>
      simp [ScreenshotModule.execute, hw, FS.existsFile_makedirs, hh]

/-- C1 (witness): the amended gate instantiated on an empty working
directory with every tool available. -/
theorem C1_upstream_gate_witness :
    (fsEmptyW.existsFile "subs.txt" = false) ∧
    ((HttpProbeModule.execute envOkW cfgDefaultW "example.com" fsEmptyW).ok = false ∧
      (HttpProbeModule.execute envOkW cfgDefaultW "example.com" fsEmptyW).fs = fsEmptyW) ∧
    ((JsDiscoveryModule.execute envOkW cfgDefaultW "example.com" fsEmptyW).ok = false ∧
      (JsDiscoveryModule.execute envOkW cfgDefaultW "example.com" fsEmptyW).fs = fsEmptyW) ∧
    ((ScreenshotModule.execute envOkW cfgDefaultW "example.com" fsEmptyW).ok = false ∧
      (ScreenshotModule.execute envOkW cfgDefaultW "example.com" fsEmptyW).fs =
        (if envOkW.which "gowitness" then fsEmptyW.makedirs "screenshots" else fsEmptyW)) :=
  ⟨rfl, C1_upstream_gate_amended envOkW cfgDefaultW "example.com" fsEmptyW rfl rfl⟩

/-- C2: whenever the subprocess completes with a non-zero exit status,
`run_cmd` returns failure, prints exactly the error diagnostic built from
the stripped stderr, and leaves the filesystem unchanged (in particular the
destination output file is not written). -/
theorem C2_nonzero_exit_no_write (env : Env) (cfg : Config) (name cmd outfile : String)
    (fs : FS) (rc : Int) (out err : String)
    (h : env.run cmd (some cfg.timeout) = RunOutcome.completed rc out err) (hrc : rc ≠ 0) :
    (runCmd env cfg name cmd outfile fs).ok = false ∧
    (runCmd env cfg name cmd outfile fs).fs = fs ∧
    (runCmd env cfg name cmd outfile fs).log =
      ["[ERROR] in " ++ name ++ ": " ++ strTrim err] := by
  simp [runCmd, h, hrc]

/-- C2 (witness): a concrete command exiting with status 1. -/
theorem C2_nonzero_exit_no_write_witness :
    (runCmd envFailW cfgDefaultW "ports" "naabu" "ports.txt" fsEmptyW).ok = false ∧
    (runCmd envFailW cfgDefaultW "ports" "naabu" "ports.txt" fsEmptyW).fs = fsEmptyW ∧
    (runCmd envFailW cfgDefaultW "ports" "naabu" "ports.txt" fsEmptyW).log =
      ["[ERROR] in ports: " ++ strTrim " boom "] :=
  C2_nonzero_exit_no_write envFailW cfgDefaultW "ports" "naabu" "ports.txt" fsEmptyW
    1 "" " boom " rfl (by decide)

/-- C3 (counterexample): a full default-profile run spawns the JS-discovery
`curl` fetch with no timeout argument at all, not the configured 300-second
bound, so "no subprocess is started without that bound" is false. -/
theorem C3_curl_unbounded_counterexample :
    ("curl -s x.js", (none : Option Nat)) ∈
        (autoscopeMain envOkW argsDefaultW fsEmptyW).spawns ∧
    (none : Option Nat) ≠ some (mainConfig argsDefaultW).timeout := by
  constructor
  · decide
  · decide

/-- C3 (amended): every subprocess spawned by any module carries the
configured per-command timeout, except the JS-discovery module, whose
`curl` fetches are all started with no timeout bound. -/
theorem C3_spawn_timeouts_amended (env : Env) (cfg : Config) (t : String) (fs : FS)
    (m : ModuleKind) :
    ∀ p ∈ (m.execute env cfg t fs).spawns,
      p.2 = if m = ModuleKind.js_discovery then (none : Option Nat) else some cfg.timeout := by
  cases m
  case subdomain => rw [if_neg (by decide)]; exact subdomain_spawn_bounded env cfg t fs
  case ports => rw [if_neg (by decide)]; exact ports_spawn_bounded env cfg t fs
  case http_probe => rw [if_neg (by decide)]; exact http_probe_spawn_bounded env cfg t fs
  case js_discovery => rw [if_pos rfl]; exact js_discovery_spawn_unbounded env cfg t fs
  case dir_bruteforce => rw [if_neg (by decide)]; exact dir_bruteforce_spawn_bounded env cfg t fs
  case param_discovery => rw [if_neg (by decide)]; exact param_discovery_spawn_bounded env cfg t fs
  case screenshot => rw [if_neg (by decide)]; exact screenshot_spawn_bounded env cfg t fs

/-- C3 (witness): the amended statement instantiated on the port-scan
module's concrete spawn. -/
theorem C3_spawn_timeouts_witness :
    (("naabu -host t -p 1-65535 -silent -o ports.txt", some 300) : String × Option Nat).2 =
      (if ModuleKind.ports = ModuleKind.js_discovery then (none : Option Nat)
        else some cfgDefaultW.timeout) :=
  C3_spawn_timeouts_amended envOkW cfgDefaultW "t" fsEmptyW ModuleKind.ports
    ("naabu -host t -p 1-65535 -silent -o ports.txt", some 300) (by decide)

/-- C4: for every environment (hence every pattern of per-module failures),
a run whose flags pass the mutual-exclusion guard prints the start notice
of every selected module in strict list order, and its log always ends with
the final success banner — no module failure stops the pipeline or
suppresses the banner. -/
theorem C4_pipeline_order_and_banner (env : Env) (a : Args) (fs : FS)
    (h : ¬(a.fast = true ∧ a.deep = true)) :
    List.Sublist ((selectModules a).map (fun m => "[INFO] Executing module: " ++ m.name))
      (autoscopeMain env a fs).log ∧
    ∃ l, (autoscopeMain env a fs).log = l ++ ["[SUCCESS] AutoScope scan completed!"] := by
  have hfd : (a.fast && a.deep) = false := by
    cases hf : a.fast <;> cases hd : a.deep <;> simp_all
  constructor
  · simp only [autoscopeMain, hfd, Bool.false_eq_true, if_false]
    exact ((runModules_notices env (mainConfig a) a.target (selectModules a) fs).trans
      (List.sublist_append_left _ _)).trans (List.sublist_append_left _ _)
  · simp only [autoscopeMain, hfd, Bool.false_eq_true, if_false]
    exact ⟨_, rfl⟩

/-- C4 (witness): a concrete default run. -/
theorem C4_pipeline_order_and_banner_witness :
    List.Sublist
      ((selectModules argsDefaultW).map (fun m => "[INFO] Executing module: " ++ m.name))
      (autoscopeMain envOkW argsDefaultW fsEmptyW).log ∧
    ∃ l, (autoscopeMain envOkW argsDefaultW fsEmptyW).log =
      l ++ ["[SUCCESS] AutoScope scan completed!"] :=
  C4_pipeline_order_and_banner envOkW argsDefaultW fsEmptyW (by decide)

/-- C5: with both `--fast` and `--deep` given, `main` prints only the
mutual-exclusion error and returns: the filesystem is untouched (no module
output and no report file) and no subprocess is spawned. -/
theorem C5_fast_deep_abort (env : Env) (a : Args) (fs : FS)
    (hf : a.fast = true) (hd : a.deep = true) :
    (autoscopeMain env a fs).fs = fs ∧ (autoscopeMain env a fs).spawns = [] ∧
    (autoscopeMain env a fs).log = ["[ERROR] Cannot use --fast and --deep together"] := by
  simp [autoscopeMain, hf, hd]

/-- C5 (witness): the abort instantiated on a concrete argument vector. -/
theorem C5_fast_deep_abort_witness :
    (autoscopeMain envOkW argsFastDeepW fsEmptyW).fs = fsEmptyW ∧
    (autoscopeMain envOkW argsFastDeepW fsEmptyW).spawns = [] ∧
    (autoscopeMain envOkW argsFastDeepW fsEmptyW).log =
      ["[ERROR] Cannot use --fast and --deep together"] :=
  C5_fast_deep_abort envOkW argsFastDeepW fsEmptyW rfl rfl

/-- C6: under the fast profile the configuration built by `main` has a
60-second timeout and the port-scan module spawns `naabu` over ports
1-1000 with that bound; under the deep or default profile (fast unset) the
timeout is 300 seconds and the range is 1-65535. -/
theorem C6_profile_ports_and_timeout (env : Env) (t : String) (fs : FS) (a : Args)
    (hw : env.which "naabu" = true) :
    (a.fast = true →
      (mainConfig a).timeout = 60 ∧
      (PortsModule.execute env (mainConfig a) t fs).spawns =
        [("naabu -host " ++ t ++ " -p 1-1000 -silent -o ports.txt", some 60)]) ∧
    (a.fast = false →
      (mainConfig a).timeout = 300 ∧
      (PortsModule.execute env (mainConfig a) t fs).spawns =
        [("naabu -host " ++ t ++ " -p 1-65535 -silent -o ports.txt", some 300)]) := by
  constructor <;> intro hf <;>
    refine ⟨by simp [mainConfig, hf], ?_⟩ <;>
    simp [PortsModule.execute, hw, runCmd_spawns, mainConfig, hf, strAppend_assoc]

/-- C6 (witness): the profile split instantiated on the default argument
vector. -/
theorem C6_profile_ports_and_timeout_witness :
    (argsDefaultW.fast = true →
      (mainConfig argsDefaultW).timeout = 60 ∧
      (PortsModule.execute envOkW (mainConfig argsDefaultW) "t" fsEmptyW).spawns =
        [("naabu -host " ++ "t" ++ " -p 1-1000 -silent -o ports.txt", some 60)]) ∧
    (argsDefaultW.fast = false →
      (mainConfig argsDefaultW).timeout = 300 ∧
      (PortsModule.execute envOkW (mainConfig argsDefaultW) "t" fsEmptyW).spawns =
        [("naabu -host " ++ "t" ++ " -p 1-65535 -silent -o ports.txt", some 300)]) :=
  C6_profile_ports_and_timeout envOkW "t" fsEmptyW argsDefaultW rfl

/-- C7: for every working directory and permitted report format, reading the
generated report back gives the title followed by exactly one section per
`.txt` file present when `generate_report` runs, in directory order; a
zero-size file's section carries the marker text and a non-empty file's
section embeds its full contents verbatim. -/
theorem C7_report_sections (fs : FS) (format : String)
    (h : format = "md" ∨ format = "json" ∨ format = "csv") :
    (generate_report fs format).1.read ("report." ++ format) =
      some ("# AutoScope Report\n\n" ++ strConcat ((txtSections fs).map reportSection)) ∧
    (∀ e ∈ txtSections fs, e.2.length = 0 →
      reportSection e = "## " ++ stem e.1 ++ "\n" ++ "Empty - Module Failed or Skipped\n\n") ∧
    (∀ e ∈ txtSections fs, e.2.length ≠ 0 →
      reportSection e = "## " ++ stem e.1 ++ "\n" ++ (e.2 ++ "\n\n")) := by
  have hg : globTxt ("report." ++ format) = false := by
    rcases h with h | h | h <;> subst h <;> decide
  refine ⟨?_, ?_, ?_⟩
  · unfold generate_report
    rw [FS.read_writeFile, txtSections_writeFile fs ("report." ++ format) "" hg,
      reportBody_eq_map]
  · intro e _ h0
    simp [reportSection, h0]
  · intro e _ h0
    simp [reportSection, h0]

/-- C7 (witness): a markdown report over one non-empty and one empty `.txt`
file. -/
theorem C7_report_sections_witness :
    (generate_report fsReportW "md").1.read ("report." ++ "md") =
      some ("# AutoScope Report\n\n" ++ strConcat ((txtSections fsReportW).map reportSection)) ∧
    (∀ e ∈ txtSections fsReportW, e.2.length = 0 →
      reportSection e = "## " ++ stem e.1 ++ "\n" ++ "Empty - Module Failed or Skipped\n\n") ∧
    (∀ e ∈ txtSections fsReportW, e.2.length ≠ 0 →
      reportSection e = "## " ++ stem e.1 ++ "\n" ++ (e.2 ++ "\n\n")) :=
  C7_report_sections fsReportW "md" (Or.inl rfl)

/-- C8: when the tool check and dependency gate pass, the JS-discovery
module returns success exactly when at least one endpoint substring was
extracted across all fetched URLs, and the list written to `endpoints.txt`
is duplicate-free while containing exactly the extracted endpoints. -/
theorem C8_js_success_iff_and_dedup (env : Env) (cfg : Config) (t : String) (fs : FS)
    (hc : env.which "curl" = true) (hx : fs.existsFile "httpx.txt" = true) :
    ((JsDiscoveryModule.execute env cfg t fs).ok = true ↔ jsExtracted env fs ≠ []) ∧
    ∃ written,
      (JsDiscoveryModule.execute env cfg t fs).fs.read "endpoints.txt" =
        some (strIntercalate "\n" written) ∧
      written.Nodup ∧ (∀ x, x ∈ written ↔ x ∈ jsExtracted env fs) := by
  constructor
  · simp [JsDiscoveryModule.execute, hc, hx]
  · refine ⟨(jsExtracted env fs).dedup, ?_, List.nodup_dedup _, fun x => List.mem_dedup⟩
    simp only [JsDiscoveryModule.execute, hc, hx, Bool.not_true, Bool.false_eq_true,
      if_false, Bool.not_false, if_true]
    exact FS.read_writeFile fs "endpoints.txt" _

/-- C8 (witness): one fetched JS URL yielding one endpoint. -/
theorem C8_js_success_iff_and_dedup_witness :
    ((JsDiscoveryModule.execute envJsW cfgDefaultW "t" fsHttpxW).ok = true ↔
      jsExtracted envJsW fsHttpxW ≠ []) ∧
    ∃ written,
      (JsDiscoveryModule.execute envJsW cfgDefaultW "t" fsHttpxW).fs.read "endpoints.txt" =
        some (strIntercalate "\n" written) ∧
      written.Nodup ∧ (∀ x, x ∈ written ↔ x ∈ jsExtracted envJsW fsHttpxW) :=
  C8_js_success_iff_and_dedup envJsW cfgDefaultW "t" fsHttpxW rfl (by decide)

/-- C9: in the HTTP-probe module, if the probe subprocess step succeeds but
the tech-extraction pass raises an exception (an I/O fault opening either
file), the whole module's `execute()` returns failure. -/
theorem C9_tech_extraction_fails_module (env : Env) (cfg : Config) (t : String) (fs : FS)
    (hw : env.which "httpx" = true) (hs : fs.existsFile "subs.txt" = true)
    (hp : (runCmd env cfg "http_probe" httpProbeCmd "httpx.txt" fs).ok = true)
    (hf : (env.openFault "httpx.txt" || env.openFault "tech.txt") = true) :
    (HttpProbeModule.execute env cfg t fs).ok = false := by
  simp [HttpProbeModule.execute, hw, hs, hp, hf]

/-- C9 (witness): a probe that succeeds followed by a faulting extraction
pass. -/
theorem C9_tech_extraction_fails_module_witness :
    (runCmd envFaultW cfgDefaultW "http_probe" httpProbeCmd "httpx.txt" fsSubsW).ok = true ∧
    (HttpProbeModule.execute envFaultW cfgDefaultW "example.com" fsSubsW).ok = false :=
  ⟨by decide,
   C9_tech_extraction_fails_module envFaultW cfgDefaultW "example.com" fsSubsW
     rfl (by decide) (by decide) rfl⟩

/-- C10: for every permitted report format the report file's name does not
match the `'*.txt'` glob, so even after the report file has been created,
no entry of the section list is the report file itself. -/
theorem C10_report_excluded_from_glob (format : String) (fs : FS)
    (h : format = "md" ∨ format = "json" ∨ format = "csv") :
    globTxt ("report." ++ format) = false ∧
    ∀ e ∈ txtSections (fs.writeFile ("report." ++ format) ""),
      e.1 ≠ "report." ++ format := by
  have hg : globTxt ("report." ++ format) = false := by
    rcases h with h | h | h <;> subst h <;> decide
  refine ⟨hg, ?_⟩
  intro e he heq
  have hm : globTxt e.1 = true := (List.mem_filter.mp he).2
  rw [heq, hg] at hm
  exact Bool.false_ne_true hm

/-- C10 (witness): the markdown report name over an empty working
directory. -/
theorem C10_report_excluded_from_glob_witness :
    globTxt ("report." ++ "md") = false ∧
    ∀ e ∈ txtSections (fsEmptyW.writeFile ("report." ++ "md") ""),
      e.1 ≠ "report." ++ "md" :=
  C10_report_excluded_from_glob "md" fsEmptyW (Or.inl rfl)
